import Mathlib

/-!
Verification of the map lifecycle and interaction engine of the Thai
population-density choropleth map (Next.js + Leaflet implementation).

The development shallowly embeds the relevant parts of
`src/components/map/Map.tsx` and `src/utils/performance.ts`:

* `getColor` — the pure color classifier (Map.tsx, `getColor`);
* the legend construction (Map.tsx, `CustomLegendControl.onAdd`);
* the highlight tracker (`resetAllHighlights`, `highlightFeature`,
  `resetHighlight`), modelled as a state machine over feature handles;
* the data-loading effect (`fetchData`) and `handleRetry`;
* the viewport lifecycle (`cleanup` and the map-initialization effect);
* the background tile-layer effect of the revised component;
* the timing helpers `debounce`, `throttle` and `lazyLoad`, modelled as
  explicit state machines over event-loop time.

Numeric density values are modelled as rationals (`ℚ`); timestamps as
integers; feature-layer handles and viewport objects as natural-number
identifiers.
-/

namespace DensityMap

/-! ## Color classifier (Map.tsx `getColor`) -/

/-- Shallow embedding of `getColor` from Map.tsx: the nested conditional
expression mapping a density value to one of 8 fixed colors. -/
def getColor (d : ℚ) : String :=
  if d > 1000 then "#800026"
  else if d > 500 then "#BD0026"
  else if d > 200 then "#E31A1C"
  else if d > 100 then "#FC4E2A"
  else if d > 50 then "#FD8D3C"
  else if d > 20 then "#FEB24C"
  else if d > 10 then "#FED976"
  else "#FFEDA0"

/-- The 8 fixed colors of the classifier, in increasing order of severity
(lowest-density bucket first), as they appear in `getColor`. -/
def colorScale : List String :=
  ["#FFEDA0", "#FED976", "#FEB24C", "#FD8D3C", "#FC4E2A", "#E31A1C",
   "#BD0026", "#800026"]

/-- The severity bucket index assigned to a density value: follows exactly
the branch structure of `getColor` (0 = lowest bucket, 7 = highest). -/
def severity (d : ℚ) : Nat :=
  if d > 1000 then 7
  else if d > 500 then 6
  else if d > 200 then 5
  else if d > 100 then 4
  else if d > 50 then 3
  else if d > 20 then 2
  else if d > 10 then 1
  else 0

/-- The comparison boundaries appearing in `getColor`, ascending. -/
def classifierBoundaries : List ℚ := [10, 20, 50, 100, 200, 500, 1000]

/-! ## Legend (Map.tsx `CustomLegendControl.onAdd`) -/

/-- The `grades` array of `CustomLegendControl.onAdd`. -/
def legendGrades : List ℚ := [0, 10, 20, 50, 100, 200, 500, 1000]

/-- The swatch colors the legend renders: for each grade the legend calls
`this.getColor(from + 1)`. -/
def legendSwatchColors : List String :=
  legendGrades.map (fun g => getColor (g + 1))

set_option maxHeartbeats 1600000 in
/-- C3: the color classifier is a deterministic total function: every density
value receives exactly one of the 8 fixed colors of `colorScale`, namely the
one at index `severity v`; the severity bucket is monotone non-decreasing in
the value; the buckets partition the value line at the boundaries
10, 20, 50, 100, 200, 500, 1000; and the endpoint colors are dedicated:
`#800026` holds exactly above 1000 and `#FFEDA0` exactly at or below 10. -/
theorem getColor_total_partition_monotone :
    (∀ v : ℚ, getColor v ∈ colorScale) ∧
    (∀ v : ℚ, getColor v = colorScale.getD (severity v) "") ∧
    (∀ v w : ℚ, v ≤ w → severity v ≤ severity w) ∧
    (∀ v : ℚ, (getColor v = "#800026" ↔ 1000 < v) ∧
      (getColor v = "#FFEDA0" ↔ v ≤ 10)) ∧
    (∀ v : ℚ,
      (v ≤ 10 → severity v = 0) ∧ (10 < v → v ≤ 20 → severity v = 1) ∧
      (20 < v → v ≤ 50 → severity v = 2) ∧ (50 < v → v ≤ 100 → severity v = 3) ∧
      (100 < v → v ≤ 200 → severity v = 4) ∧
      (200 < v → v ≤ 500 → severity v = 5) ∧
      (500 < v → v ≤ 1000 → severity v = 6) ∧ (1000 < v → severity v = 7)) := by
  refine ⟨fun v => ?_, fun v => ?_, fun v w h => ?_, fun v => ?_, fun v => ?_⟩
  · unfold getColor colorScale
    split_ifs <;> simp
  · unfold getColor severity colorScale
    split_ifs <;> rfl
  · unfold severity
    split_ifs <;> first | omega | (exfalso; linarith)
  · unfold getColor
    split_ifs <;> constructor <;> constructor <;> intro h <;>
      first | rfl | linarith | (exfalso; simp_all)
  · unfold severity
    split_ifs <;>
      refine ⟨?_, ?_, ?_, ?_, ?_, ?_, ?_, ?_⟩ <;> intros <;> first | rfl | linarith

/-- Witness for C3 at concrete densities 15 and 300. -/
theorem getColor_total_partition_monotone_witness :
    getColor 15 ∈ colorScale ∧ severity 15 ≤ severity 300 ∧ severity 300 = 5 :=
  ⟨getColor_total_partition_monotone.1 15,
   getColor_total_partition_monotone.2.2.1 15 300 (by norm_num),
   (getColor_total_partition_monotone.2.2.2.2 300).2.2.2.2.2.1 (by norm_num)
     (by norm_num)⟩

set_option maxHeartbeats 1600000 in
/-- C9: the legend enumerates 0 followed by exactly the boundary list of the
classifier; every legend swatch is the classifier color of the representative
value grade + 1; the swatch list coincides with the classifier color scale;
and every value inside legend bucket i is classified with the color of
swatch i, so legend and classifier cannot drift apart. -/
theorem legend_matches_classifier :
    legendGrades = 0 :: classifierBoundaries ∧
    legendSwatchColors = colorScale ∧
    (∀ i : Nat, i < legendGrades.length →
      legendSwatchColors.getD i "" = getColor (legendGrades.getD i 0 + 1)) ∧
    (∀ i : Nat, ∀ v : ℚ, i + 1 < legendGrades.length →
      legendGrades.getD i 0 < v → v ≤ legendGrades.getD (i + 1) 0 →
      getColor v = legendSwatchColors.getD i "") ∧
    (∀ v : ℚ, 1000 < v → getColor v = legendSwatchColors.getD 7 "") := by
  refine ⟨by norm_num [legendGrades, classifierBoundaries],
    by norm_num [legendSwatchColors, legendGrades, getColor, colorScale],
    fun i hi => ?_, fun i v hi h1 h2 => ?_, fun v hv => ?_⟩
  · have hi8 : i < 8 := by simpa [legendGrades] using hi
    interval_cases i <;> norm_num [legendSwatchColors, legendGrades, getColor]
  · have hi7 : i < 7 := by simp [legendGrades] at hi; omega
    interval_cases i <;>
      simp_all [legendGrades, legendSwatchColors, getColor, List.getD] <;>
      split_ifs <;> first | rfl | linarith
  · have hc : getColor v = "#800026" := by
      unfold getColor
      split_ifs <;> first | rfl | linarith
    rw [hc]
    norm_num [legendSwatchColors, legendGrades, getColor]

/-- Witness for C9 at legend bucket 2 and concrete density 30. -/
theorem legend_matches_classifier_witness :
    legendSwatchColors.getD 2 "" = getColor (legendGrades.getD 2 0 + 1) ∧
    getColor 30 = legendSwatchColors.getD 2 "" ∧
    getColor 2000 = legendSwatchColors.getD 7 "" :=
  ⟨legend_matches_classifier.2.2.1 2 (by norm_num [legendGrades]),
   legend_matches_classifier.2.2.2.1 2 30 (by norm_num [legendGrades])
     (by norm_num [legendGrades]) (by norm_num [legendGrades]),
   legend_matches_classifier.2.2.2.2 2000 (by norm_num)⟩

/-! ## Highlight tracker (Map.tsx `resetAllHighlights`, `highlightFeature`,
`resetHighlight`)

Feature-layer handles are natural numbers; `density h` is the `p` property of
the feature bound to handle `h`.  The Leaflet path options touched by the two
`setStyle` calls are modelled by `FeatureStyle`; `setStyle` merges the given
options into the current ones, which `highlightStyleUpdate` reflects by
keeping the fields it does not mention.  The handlers close over a non-null
`geoJSONData` (they are only attached by `onEachFeature` when the GeoJSON
layer is built from loaded data), so the `if (geoJSONData)` guard of
`resetAllHighlights` is always taken in the modelled regime.  The delayed
body of `resetHighlight` (the callback `setTimeout` runs ~30 ms later) is
modelled as the separate event `leaveFire`. -/

/-- The Leaflet path options set by the style functions of Map.tsx. -/
structure FeatureStyle where
  fillColor : String
  weight : ℚ
  opacity : ℚ
  color : String
  dashArray : String
  fillOpacity : ℚ
deriving DecidableEq

/-- The memoized `style` function of Map.tsx applied to a feature with
density p: the normal classified style. -/
def styleOf (p : ℚ) : FeatureStyle :=
  { fillColor := getColor p, weight := 1, opacity := 1, color := "white",
    dashArray := "3", fillOpacity := 7/10 }

/-- The `setStyle` call of `highlightFeature`: merges weight 5, color "#666",
empty dashArray and fillOpacity 0.7 into the current options. -/
def highlightStyleUpdate (s : FeatureStyle) : FeatureStyle :=
  { s with weight := 5, color := "#666", dashArray := "", fillOpacity := 7/10 }

/-- JS `Set.add`: appends the element when it is not already present. -/
def setAdd (h : Nat) (l : List Nat) : List Nat := if h ∈ l then l else l ++ [h]

/-- The tracker's mutable state: per-handle styles, `highlightedLayerRef`,
`highlightedLayersRef` (a JS Set, as an insertion-ordered duplicate-free
list) and which feature the info control currently shows. -/
structure TrackerState where
  styles : Nat → FeatureStyle
  highlightedLayer : Option Nat
  highlightedLayers : List Nat
  infoShown : Option Nat

/-- Shallow embedding of `resetAllHighlights`: every tracked layer is reset
to its normal classified style, the set is cleared, the current-layer ref is
nulled and the info control is reset. -/
def resetAllHighlights (density : Nat → ℚ) (s : TrackerState) : TrackerState :=
  { styles := fun h =>
      if h ∈ s.highlightedLayers then styleOf (density h) else s.styles h,
    highlightedLayer := none,
    highlightedLayers := [],
    infoShown := none }

/-- Shallow embedding of `highlightFeature` (the `mouseover` handler): reset
all existing highlights first, apply the emphasized style to the target, then
record it in both refs and show its info. -/
def highlightFeature (density : Nat → ℚ) (h : Nat) (s : TrackerState) :
    TrackerState :=
  let s0 := resetAllHighlights density s
  { styles := Function.update s0.styles h (highlightStyleUpdate (s0.styles h)),
    highlightedLayer := some h,
    highlightedLayers := setAdd h s0.highlightedLayers,
    infoShown := some h }

/-- Shallow embedding of the delayed body of `resetHighlight` (the code the
30 ms `setTimeout` runs): reset the target to its normal style only when it
is still the currently tracked layer. -/
def resetHighlightFire (density : Nat → ℚ) (h : Nat) (s : TrackerState) :
    TrackerState :=
  if s.highlightedLayer = some h then
    { styles := Function.update s.styles h (styleOf (density h)),
      highlightedLayer := none,
      highlightedLayers := s.highlightedLayers.erase h,
      infoShown := none }
  else s

/-- The highlight events observable at event-loop granularity: a `mouseover`
(`enter`) and the firing of a scheduled delayed reset (`leaveFire`). -/
inductive HighlightEvent where
  | enter (h : Nat)
  | leaveFire (h : Nat)

/-- One event-processing step of the tracker. -/
def trackerStep (density : Nat → ℚ) (s : TrackerState) (e : HighlightEvent) :
    TrackerState :=
  match e with
  | .enter h => highlightFeature density h s
  | .leaveFire h => resetHighlightFire density h s

/-- Processing a sequence of highlight events. -/
def runTracker (density : Nat → ℚ) (s : TrackerState) (es : List HighlightEvent) :
    TrackerState :=
  es.foldl (trackerStep density) s

/-- The tracker's state at mount: every layer carries its normal classified
style and nothing is highlighted. -/
def trackerInit (density : Nat → ℚ) : TrackerState :=
  { styles := fun h => styleOf (density h), highlightedLayer := none,
    highlightedLayers := [], infoShown := none }

/-- The linking invariant of the two refs: the tracked set is exactly the
content of the current-layer ref. -/
def TrackerInv (s : TrackerState) : Prop :=
  s.highlightedLayers = s.highlightedLayer.toList

theorem trackerStep_inv (density : Nat → ℚ) (s : TrackerState) (e : HighlightEvent)
    (hs : TrackerInv s) : TrackerInv (trackerStep density s e) := by
  cases e with
  | enter h =>
      simp [trackerStep, highlightFeature, resetAllHighlights, setAdd, TrackerInv]
  | leaveFire h =>
      show TrackerInv (resetHighlightFire density h s)
      unfold resetHighlightFire
      split_ifs with hh
      · simp_all [TrackerInv]
      · exact hs

theorem runTracker_inv (density : Nat → ℚ) (es : List HighlightEvent)
    (s : TrackerState) (hs : TrackerInv s) : TrackerInv (runTracker density s es) := by
  induction es generalizing s with
  | nil => exact hs
  | cons e es ih => exact ih _ (trackerStep_inv density s e hs)

theorem two_enters (density : Nat → ℚ) (A B : Nat) (hAB : A ≠ B) :
    (runTracker density (trackerInit density) [.enter A, .enter B]).highlightedLayer
      = some B ∧
    (runTracker density (trackerInit density) [.enter A, .enter B]).highlightedLayers
      = [B] ∧
    (runTracker density (trackerInit density) [.enter A, .enter B]).styles A
      = styleOf (density A) ∧
    (runTracker density (trackerInit density) [.enter A, .enter B]).styles B
      = highlightStyleUpdate (styleOf (density B)) := by
  simp [runTracker, trackerStep, highlightFeature, resetAllHighlights, trackerInit,
    setAdd, Function.update, hAB, Ne.symm hAB]

/-- C1: at every point observable between event-processing steps the set of
tracked highlighted handles has cardinality at most 1, and after
onEnter(A), onEnter(B) with no intervening onLeave exactly B is highlighted
while A has been reset to its normal classified style. -/
theorem highlightTracker_at_most_one (density : Nat → ℚ) :
    (∀ es : List HighlightEvent,
      (runTracker density (trackerInit density) es).highlightedLayers.length ≤ 1) ∧
    (∀ A B : Nat, A ≠ B →
      (runTracker density (trackerInit density)
        [.enter A, .enter B]).highlightedLayer = some B ∧
      (runTracker density (trackerInit density)
        [.enter A, .enter B]).highlightedLayers = [B] ∧
      (runTracker density (trackerInit density) [.enter A, .enter B]).styles A
        = styleOf (density A) ∧
      (runTracker density (trackerInit density) [.enter A, .enter B]).styles B
        = highlightStyleUpdate (styleOf (density B))) := by
  constructor
  · intro es
    have h := runTracker_inv density es (trackerInit density)
      (by simp [TrackerInv, trackerInit])
    rw [TrackerInv] at h
    rw [h]
    cases (runTracker density (trackerInit density) es).highlightedLayer <;> simp
  · exact fun A B hAB => two_enters density A B hAB

/-- Witness for C1: handles 0 and 1 with density h ↦ h. -/
theorem highlightTracker_at_most_one_witness :
    (runTracker (fun n => (n : ℚ)) (trackerInit (fun n => (n : ℚ)))
      [.enter 0, .enter 1]).highlightedLayer = some 1 ∧
    (runTracker (fun n => (n : ℚ)) (trackerInit (fun n => (n : ℚ)))
      [.enter 0, .enter 1]).highlightedLayers = [1] ∧
    (runTracker (fun n => (n : ℚ)) (trackerInit (fun n => (n : ℚ)))
      [.enter 0, .enter 1]).styles 0 = styleOf ((0 : Nat) : ℚ) ∧
    (runTracker (fun n => (n : ℚ)) (trackerInit (fun n => (n : ℚ)))
      [.enter 0, .enter 1]).styles 1 = highlightStyleUpdate (styleOf ((1 : Nat) : ℚ)) :=
  (highlightTracker_at_most_one fun n => (n : ℚ)).2 0 1 (by decide)

/-- C5: the delayed reset scheduled by onLeave resets its handle only when it
is still the currently tracked handle when the delayed check runs; for the
sequence onEnter(A), onLeave(A), onEnter(B) inside the flicker window, A's
delayed reset is a no-op and only B ends up highlighted. -/
theorem delayed_reset_conditional (density : Nat → ℚ) :
    (∀ (s : TrackerState) (h : Nat), s.highlightedLayer ≠ some h →
      resetHighlightFire density h s = s) ∧
    (∀ (s : TrackerState) (h : Nat), s.highlightedLayer = some h →
      resetHighlightFire density h s
        = { styles := Function.update s.styles h (styleOf (density h)),
            highlightedLayer := none,
            highlightedLayers := s.highlightedLayers.erase h,
            infoShown := none }) ∧
    (∀ A B : Nat, A ≠ B →
      runTracker density (trackerInit density) [.enter A, .enter B, .leaveFire A]
        = runTracker density (trackerInit density) [.enter A, .enter B] ∧
      (runTracker density (trackerInit density)
        [.enter A, .enter B, .leaveFire A]).highlightedLayer = some B ∧
      (runTracker density (trackerInit density)
        [.enter A, .enter B, .leaveFire A]).highlightedLayers = [B]) := by
  have hnoop : ∀ (s : TrackerState) (h : Nat), s.highlightedLayer ≠ some h →
      resetHighlightFire density h s = s := by
    intro s h hne
    unfold resetHighlightFire
    exact if_neg hne
  refine ⟨hnoop, fun s h hh => ?_, fun A B hAB => ?_⟩
  · unfold resetHighlightFire
    exact if_pos hh
  · have h2 := two_enters density A B hAB
    have hne : (runTracker density (trackerInit density)
        [.enter A, .enter B]).highlightedLayer ≠ some A := by
      rw [h2.1]
      exact fun hc => hAB (Option.some.inj hc).symm
    have heq : runTracker density (trackerInit density)
        [.enter A, .enter B, .leaveFire A]
        = runTracker density (trackerInit density) [.enter A, .enter B] := by
      show resetHighlightFire density A
        (runTracker density (trackerInit density) [.enter A, .enter B])
        = runTracker density (trackerInit density) [.enter A, .enter B]
      exact hnoop _ A hne
    refine ⟨heq, ?_, ?_⟩ <;> rw [heq]
    · exact h2.1
    · exact h2.2.1

/-- Witness for C5: handles 0 and 1 with density h ↦ h. -/
theorem delayed_reset_conditional_witness :
    runTracker (fun n => (n : ℚ)) (trackerInit (fun n => (n : ℚ)))
      [.enter 0, .enter 1, .leaveFire 0]
      = runTracker (fun n => (n : ℚ)) (trackerInit (fun n => (n : ℚ)))
        [.enter 0, .enter 1] ∧
    (runTracker (fun n => (n : ℚ)) (trackerInit (fun n => (n : ℚ)))
      [.enter 0, .enter 1, .leaveFire 0]).highlightedLayer = some 1 ∧
    (runTracker (fun n => (n : ℚ)) (trackerInit (fun n => (n : ℚ)))
      [.enter 0, .enter 1, .leaveFire 0]).highlightedLayers = [1] :=
  (delayed_reset_conditional fun n => (n : ℚ)).2.2 0 1 (by decide)

/-! ## Feature data loader (Map.tsx data-loading useEffect and `handleRetry`)

The React state triple (`geoJSONData`, `error`, `isLoading`) is the loader
state; the parsed feature collection is abstracted to a `Nat`.  One run of
the inner `fetchData` closure is modelled by a function of the state and the
outcome of the awaited fetch/parse; its second component is the delay of the
automatic retry the `catch` block schedules (`setTimeout(fetchData, 3000)`),
when it schedules one. -/

/-- The loader-relevant React state of the Map component. -/
structure LoaderState where
  geoJSONData : Option Nat
  error : Option String
  isLoading : Bool
deriving DecidableEq

/-- The initial React state: `isLoading` starts true, data and error null. -/
def loaderInit : LoaderState :=
  { geoJSONData := none, error := none, isLoading := true }

/-- Outcome of one awaited fetch-and-parse: either parsed data or the
human-readable message of the thrown error. -/
inductive FetchOutcome where
  | success (d : Nat)
  | failure (msg : String)
deriving DecidableEq

/-- Shallow embedding of one run of `fetchData`: cached data short-circuits;
otherwise loading is set, the error cleared, and the awaited outcome either
stores the data or stores the error message and schedules an automatic retry
after 3000 ms (the returned delay). -/
def fetchData (s : LoaderState) (o : FetchOutcome) : LoaderState × Option Nat :=
  if s.geoJSONData.isSome then ({ s with isLoading := false }, none)
  else
    match o with
    | .success d => ({ geoJSONData := some d, error := none, isLoading := false },
                     none)
    | .failure msg => ({ geoJSONData := s.geoJSONData, error := some msg,
                         isLoading := false }, some 3000)

/-- Shallow embedding of `handleRetry`: clear the error, show the loading
state and null the data so the data-loading effect re-runs. -/
def handleRetry (s : LoaderState) : LoaderState :=
  { geoJSONData := none, error := none, isLoading := true }

/-- Counterexample to C2 as stated: the first failed attempt schedules an
automatic retry, and when that automatic retry fails it again schedules an
automatic retry after 3000 ms, with no manual action — the catch block of
`fetchData` schedules a retry unconditionally, so automatic retries repeat
instead of stopping after one. -/
theorem fetchData_second_failure_schedules_again :
    (fetchData (fetchData loaderInit (.failure "network error")).1
      (.failure "network error")).2 = some 3000 := by decide

/-- C2 (amended): a failed attempt surfaces a failed state carrying the
message and schedules an automatic retry after 3000 ms; this happens on
every failed attempt, including automatic retries, so automatic retries
repeat as long as failures continue; a successful attempt schedules nothing;
and manual retry is available at any time, resetting to the loading state
with the data cleared. -/
theorem fetchData_failure_surfaces_and_schedules_retry :
    (∀ (s : LoaderState) (msg : String), s.geoJSONData = none →
      fetchData s (FetchOutcome.failure msg)
        = ({ geoJSONData := none, error := some msg, isLoading := false },
           some 3000)) ∧
    (∀ (s : LoaderState) (d : Nat), s.geoJSONData = none →
      fetchData s (FetchOutcome.success d)
        = ({ geoJSONData := some d, error := none, isLoading := false }, none)) ∧
    (∀ s : LoaderState,
      handleRetry s = { geoJSONData := none, error := none, isLoading := true }) := by
  refine ⟨fun s msg hs => ?_, fun s d hs => ?_, fun s => rfl⟩ <;> simp [fetchData, hs]

/-- Witness for C2 (amended) at a concrete failed state. -/
theorem fetchData_failure_surfaces_and_schedules_retry_witness :
    fetchData { geoJSONData := none, error := none, isLoading := true }
      (FetchOutcome.failure "Failed to fetch data: 500")
      = ({ geoJSONData := none, error := some "Failed to fetch data: 500",
           isLoading := false }, some 3000) ∧
    handleRetry { geoJSONData := none, error := some "Failed to fetch data: 500",
                  isLoading := false }
      = { geoJSONData := none, error := none, isLoading := true } :=
  ⟨fetchData_failure_surfaces_and_schedules_retry.1 _ "Failed to fetch data: 500" rfl,
   fetchData_failure_surfaces_and_schedules_retry.2.2 _⟩

/-! ## Viewport lifecycle (Map.tsx map-initialization useEffect and `cleanup`)

Viewport (Leaflet map) objects are numbered as they are constructed; `live`
is the list of constructed, not-yet-destroyed viewports of this mount,
`mapRef` the component's `mapRef.current`.  One run of the initialization
effect body is `initMapEffect`, taking whether the container ref is set,
whether data is loaded, and whether the container is attached to the DOM
(the `document.body.contains` check); when the container is not attached the
effect only polls and constructs nothing. -/

/-- The lifecycle-relevant state of the Map component. -/
structure ViewportState where
  mapRef : Option Nat
  live : List Nat
  nextId : Nat
  isMapReady : Bool
deriving DecidableEq

/-- Shallow embedding of `cleanup`: when a map is referenced it is removed
(destroyed), the ref nulled and readiness reset; otherwise nothing happens. -/
def cleanup (s : ViewportState) : ViewportState :=
  match s.mapRef with
  | some id =>
      { s with live := s.live.erase id, mapRef := none, isMapReady := false }
  | none => s

/-- Shallow embedding of one run of the map-initialization effect body:
return early without container or data; clean up an existing map first; with
an unattached container only poll; otherwise construct the new map and mark
readiness. -/
def initMapEffect (containerReady dataReady inDom : Bool) (s : ViewportState) :
    ViewportState :=
  if containerReady = false ∨ dataReady = false then s
  else
    let s1 := if s.mapRef.isSome then cleanup s else s
    if inDom = false then s1
    else { mapRef := some s1.nextId, live := s1.nextId :: s1.live,
           nextId := s1.nextId + 1, isMapReady := true }

/-- The lifecycle events: one run of the initialization effect, or the
effect cleanup running on unmount or dependency change. -/
inductive ViewportEvent where
  | init (containerReady dataReady inDom : Bool)
  | unmount

/-- One lifecycle step. -/
def viewportStep (s : ViewportState) (e : ViewportEvent) : ViewportState :=
  match e with
  | .init c d dom => initMapEffect c d dom s
  | .unmount => cleanup s

/-- Processing a sequence of lifecycle events. -/
def runViewport (s : ViewportState) (es : List ViewportEvent) : ViewportState :=
  es.foldl viewportStep s

/-- The state at mount: no map constructed yet. -/
def viewportInit : ViewportState :=
  { mapRef := none, live := [], nextId := 0, isMapReady := false }

/-- Lifecycle invariant: the live viewports are exactly the referenced one,
and all live identifiers were allocated. -/
def ViewportInv (s : ViewportState) : Prop :=
  s.live = s.mapRef.toList ∧ ∀ i ∈ s.live, i < s.nextId

theorem cleanup_inv (s : ViewportState) (hs : ViewportInv s) :
    ViewportInv (cleanup s) := by
  cases hm : s.mapRef with
  | none => simpa [cleanup, hm] using hs
  | some id =>
      have h1 : s.live = [id] := by rw [hs.1, hm]; rfl
      constructor <;> simp [cleanup, hm, h1]

theorem cleanup_fields (s : ViewportState) (id : Nat) (hm : s.mapRef = some id) :
    cleanup s = { mapRef := none, live := s.live.erase id, nextId := s.nextId,
                  isMapReady := false } := by
  simp [cleanup, hm]

theorem initMapEffect_inv (c d dom : Bool) (s : ViewportState) (hs : ViewportInv s) :
    ViewportInv (initMapEffect c d dom s) := by
  have hcl := cleanup_inv s hs
  cases c <;> cases d <;> cases dom <;>
    simp only [initMapEffect, Bool.false_eq_true, Bool.true_eq_false, or_self,
      or_true, true_or, or_false, false_or, if_true, if_false, ite_true,
      ite_false] <;>
    try exact hs
  · split_ifs with h
    · exact hcl
    · exact hs
  · split_ifs with h
    · have hm : (cleanup s).mapRef = none := by
        cases hmm : s.mapRef with
        | none => simp at h; simp [hmm] at h
        | some id => simp [cleanup, hmm]
      have h1 : (cleanup s).live = [] := by rw [hcl.1, hm]; rfl
      refine ⟨by simp [h1], ?_⟩
      intro i hi
      simp [h1] at hi
      show i < (cleanup s).nextId + 1
      omega
    · have hm : s.mapRef = none := by
        cases hmm : s.mapRef with
        | none => rfl
        | some id => simp [hmm] at h
      have h1 : s.live = [] := by rw [hs.1, hm]; rfl
      refine ⟨by simp [h1], ?_⟩
      intro i hi
      simp [h1] at hi
      show i < s.nextId + 1
      omega

theorem runViewport_inv (es : List ViewportEvent) (s : ViewportState)
    (hs : ViewportInv s) : ViewportInv (runViewport s es) := by
  induction es generalizing s with
  | nil => exact hs
  | cons e es ih =>
      cases e with
      | init c d dom => exact ih _ (initMapEffect_inv c d dom s hs)
      | unmount => exact ih _ (cleanup_inv s hs)

/-- C4: over any sequence of lifecycle events at most one live viewport
exists; teardown is idempotent; and initialization while a map is referenced
first fully destroys it — the old viewport is no longer live afterwards, the
new one is the only live one, and the run is the same as initializing from
the cleaned-up state. -/
theorem viewport_reinit_single_live :
    (∀ es : List ViewportEvent, (runViewport viewportInit es).live.length ≤ 1) ∧
    (∀ s : ViewportState, cleanup (cleanup s) = cleanup s) ∧
    (∀ (s : ViewportState) (id : Nat), ViewportInv s → s.mapRef = some id →
      (initMapEffect true true true s).live = [s.nextId] ∧
      id ∉ (initMapEffect true true true s).live ∧
      (initMapEffect true true true s).mapRef = some s.nextId ∧
      initMapEffect true true true s = initMapEffect true true true (cleanup s)) := by
  refine ⟨fun es => ?_, fun s => ?_, fun s id hs hm => ?_⟩
  · have h := runViewport_inv es viewportInit ⟨rfl, by simp [viewportInit]⟩
    rw [h.1]
    cases (runViewport viewportInit es).mapRef <;> simp
  · cases hm : s.mapRef with
    | none => simp [cleanup, hm]
    | some id => simp [cleanup, hm]
  · have hlive : s.live = [id] := by rw [hs.1, hm]; rfl
    have hid : id < s.nextId := hs.2 id (by simp [hlive])
    have hcl : cleanup s = { mapRef := none, live := [], nextId := s.nextId,
                             isMapReady := false } := by
      rw [cleanup_fields s id hm, hlive]
      simp
    refine ⟨?_, ?_, ?_, ?_⟩ <;> simp [initMapEffect, hm, hcl, hlive] <;> omega

/-- Witness for C4 at a concrete ready state holding viewport 0. -/
theorem viewport_reinit_single_live_witness :
    (runViewport viewportInit [.init true true true, .init true true true]).live.length
      ≤ 1 ∧
    (initMapEffect true true true
      { mapRef := some 0, live := [0], nextId := 1, isMapReady := true }).live = [1] ∧
    0 ∉ (initMapEffect true true true
      { mapRef := some 0, live := [0], nextId := 1, isMapReady := true }).live ∧
    (initMapEffect true true true
      { mapRef := some 0, live := [0], nextId := 1, isMapReady := true }).mapRef
      = some 1 :=
  ⟨viewport_reinit_single_live.1 _,
   (viewport_reinit_single_live.2.2
     { mapRef := some 0, live := [0], nextId := 1, isMapReady := true } 0
     ⟨rfl, by decide⟩ rfl).1,
   (viewport_reinit_single_live.2.2
     { mapRef := some 0, live := [0], nextId := 1, isMapReady := true } 0
     ⟨rfl, by decide⟩ rfl).2.1,
   (viewport_reinit_single_live.2.2
     { mapRef := some 0, live := [0], nextId := 1, isMapReady := true } 0
     ⟨rfl, by decide⟩ rfl).2.2.1⟩

/-! ## Background layer controller (revised Map.tsx background useEffect)

Tile layers are numbered as they are created (`attached` lists the layers
currently added to the map).  One run of the background useEffect of the
revised component is `bgEffect`; the side effects it issues are recorded as
`BgAction`s.  In the revised code, when the layer exists and the background
is shown, `safelyUpdateOpacity` schedules `setOpacity` behind a 50 ms
`setTimeout`; when a new layer is created it is added with opacity 0 and its
opacity is raised to `backgroundOpacity` behind a 100 ms `setTimeout`; when
the background is hidden the layer is removed from the map and the ref
nulled. -/

/-- What triggers a deferred opacity application: a layer load confirmation
or a plain timer of the given duration. -/
inductive Trigger where
  | loadEvent
  | timerMs (n : Nat)
deriving DecidableEq

/-- The side effects one run of the background useEffect can issue. -/
inductive BgAction where
  | attachLayer (id : Nat) (initialOpacity : ℚ)
  | removeLayer (id : Nat)
  | scheduleSetOpacity (t : Trigger) (target : ℚ)
deriving DecidableEq

/-- The background-layer state: the id allocator, `tileLayerRef.current`, and
the layers currently attached to the map. -/
structure BgState where
  nextId : Nat
  tileLayer : Option Nat
  attached : List Nat
deriving DecidableEq

/-- Shallow embedding of one run of the revised background useEffect. -/
def bgEffect (showBackground : Bool) (backgroundOpacity : ℚ) (s : BgState) :
    BgState × List BgAction :=
  if showBackground then
    match s.tileLayer with
    | some _ => (s, [.scheduleSetOpacity (.timerMs 50) backgroundOpacity])
    | none =>
        ({ nextId := s.nextId + 1, tileLayer := some s.nextId,
           attached := s.nextId :: s.attached },
         [.attachLayer s.nextId 0,
          .scheduleSetOpacity (.timerMs 100) backgroundOpacity])
  else
    match s.tileLayer with
    | some id => ({ s with tileLayer := none, attached := s.attached.erase id },
                  [.removeLayer id])
    | none => (s, [])

/-- A state in which the background layer has been removed (hidden). -/
def bgHidden : BgState := { nextId := 0, tileLayer := none, attached := [] }

/-- Counterexample to C8 as stated: turning the background on from the
hidden state attaches a fresh layer at opacity 0 but schedules the raise to
the configured opacity behind a fixed 100 ms timer, not behind the layer's
load confirmation — the deferred opacity application is triggered by
`Trigger.timerMs 100`, which is not `Trigger.loadEvent`. -/
theorem bgEffect_show_raises_opacity_by_timer :
    (bgEffect true 1 bgHidden).2
      = [BgAction.attachLayer 0 0,
         BgAction.scheduleSetOpacity (Trigger.timerMs 100) 1] ∧
    Trigger.timerMs 100 ≠ Trigger.loadEvent :=
  ⟨rfl, by decide⟩

/-- C8 (amended): hiding the background fully detaches the tile layer (the
layer is removed from the map and the ref nulled — no opacity-zero action);
showing it from hidden attaches a freshly created layer (a new identifier
not previously attached) starting at opacity 0, with the raise to the
configured opacity scheduled behind a fixed 100 ms timer rather than behind
the layer's load confirmation; opacity changes while visible are scheduled
behind a 50 ms timer. -/
theorem bgEffect_detach_and_fresh_attach :
    (∀ (q : ℚ) (s : BgState) (id : Nat), s.tileLayer = some id →
      bgEffect false q s
        = ({ s with tileLayer := none, attached := s.attached.erase id },
           [BgAction.removeLayer id])) ∧
    (∀ (q : ℚ) (s : BgState), s.tileLayer = none →
      bgEffect true q s
        = ({ nextId := s.nextId + 1, tileLayer := some s.nextId,
             attached := s.nextId :: s.attached },
           [BgAction.attachLayer s.nextId 0,
            BgAction.scheduleSetOpacity (Trigger.timerMs 100) q])) ∧
    (∀ (q : ℚ) (s : BgState) (id : Nat), s.tileLayer = some id →
      bgEffect true q s = (s, [BgAction.scheduleSetOpacity (Trigger.timerMs 50) q])) ∧
    (∀ (q : ℚ) (s : BgState), s.tileLayer = none →
      (∀ i ∈ s.attached, i < s.nextId) →
      BgAction.attachLayer s.nextId 0 ∈ (bgEffect true q s).2 ∧
      s.nextId ∉ s.attached) := by
  refine ⟨fun q s id hs => ?_, fun q s hs => ?_, fun q s id hs => ?_,
    fun q s hs hb => ?_⟩
  · simp [bgEffect, hs]
  · simp [bgEffect, hs]
  · simp [bgEffect, hs]
  · refine ⟨by simp [bgEffect, hs], fun hmem => ?_⟩
    have := hb _ hmem
    omega

/-- Witness for C8 (amended) at concrete states: hiding a visible layer 3
and re-showing from the hidden state. -/
theorem bgEffect_detach_and_fresh_attach_witness :
    bgEffect false 1 { nextId := 4, tileLayer := some 3, attached := [3] }
      = ({ nextId := 4, tileLayer := none, attached := [] },
         [BgAction.removeLayer 3]) ∧
    bgEffect true 1 { nextId := 4, tileLayer := none, attached := [] }
      = ({ nextId := 5, tileLayer := some 4, attached := [4] },
         [BgAction.attachLayer 4 0,
          BgAction.scheduleSetOpacity (Trigger.timerMs 100) 1]) ∧
    BgAction.attachLayer 4 0
      ∈ (bgEffect true 1 { nextId := 4, tileLayer := none, attached := [] }).2 :=
  ⟨bgEffect_detach_and_fresh_attach.1 1
     { nextId := 4, tileLayer := some 3, attached := [3] } 3 rfl,
   bgEffect_detach_and_fresh_attach.2.1 1
     { nextId := 4, tileLayer := none, attached := [] } rfl,
   (bgEffect_detach_and_fresh_attach.2.2.2 1
     { nextId := 4, tileLayer := none, attached := [] } rfl (by decide)).1⟩

/-! ## Rate limiters (performance.ts `debounce` and `throttle`)

Both wrappers are closures over timer state; they are modelled as state
machines over integer event-loop timestamps.  A `setTimeout` is a pending
`(fireTime, args)` pair; the fire operation models the event loop running a
due timer.  Note that the wrappers returned by the source are bare
functions: they carry no `cancel` member, although Map.tsx's effect cleanups
attempt to call one behind an existence guard. -/

/-- Pending-timer state of a `debounce` wrapper. -/
structure DebounceState (α : Type) where
  timeout : Option (Int × α)
deriving DecidableEq

/-- A fresh `debounce` wrapper: `timeout` starts null. -/
def debounceInit (α : Type) : DebounceState α := ⟨none⟩

/-- Calling the debounced wrapper at time `now`: any pending timer is
cleared and a new one is set for `now + wait` with the current arguments. -/
def debounceCall (wait : Int) (s : DebounceState α) (now : Int) (args : α) :
    DebounceState α :=
  ⟨some (now + wait, args)⟩

/-- The event loop at time `now`: a due pending timer runs `later`, which
nulls the timer and invokes `func` with the stored arguments (returned as
the second component). -/
def debounceFire (s : DebounceState α) (now : Int) : DebounceState α × Option α :=
  match s.timeout with
  | some (ft, a) => if ft ≤ now then (⟨none⟩, some a) else (s, none)
  | none => (s, none)

/-- Supporting theorem for C6, evaluating the debounce model on the failing
scenario: calls at t = 0 and t = 20 with wait 50 — the timer is reset by the
second call, nothing fires before t = 70, and at t = 70 the wrapped function
is invoked with the most recent arguments; since the wrapper exposes no
cancel member, no operation of the wrapper can prevent this invocation. -/
theorem debounce_trailing_latest_args :
    (debounceFire (debounceCall 50 (debounceCall 50 (debounceInit String) 0 "first")
      20 "second") 69).2 = none ∧
    (debounceFire (debounceCall 50 (debounceCall 50 (debounceInit String) 0 "first")
      20 "second") 70).2 = some "second" ∧
    (debounceFire (debounceCall 50 (debounceCall 50 (debounceInit String) 0 "first")
      20 "second") 70).1 = debounceInit String :=
  ⟨by decide, by decide, by decide⟩

/-- Timer state of a `throttle` wrapper: `previous` (initially 0, as in the
source) and the pending trailing timer. -/
structure ThrottleState (α : Type) where
  previous : Int
  timeout : Option (Int × α)
deriving DecidableEq

/-- A fresh `throttle` wrapper. -/
def throttleInit (α : Type) : ThrottleState α := ⟨0, none⟩

/-- Calling the throttled wrapper at time `now`: with no remaining time in
the window the function is invoked immediately (second component) and any
pending timer cleared; otherwise, when no trailing timer is pending, one is
set for the end of the window with the current arguments; otherwise the call
is dropped. -/
def throttleCall (wait : Int) (s : ThrottleState α) (now : Int) (args : α) :
    ThrottleState α × Option α :=
  let remaining := wait - (now - s.previous)
  if remaining ≤ 0 ∨ remaining > wait then
    (⟨now, none⟩, some args)
  else
    match s.timeout with
    | none => (⟨s.previous, some (now + remaining, args)⟩, none)
    | some _ => (s, none)

/-- The event loop at time `now`: a due trailing timer updates `previous`,
nulls the timer and invokes the function with the stored arguments. -/
def throttleFire (s : ThrottleState α) (now : Int) : ThrottleState α × Option α :=
  match s.timeout with
  | some (ft, a) => if ft ≤ now then (⟨now, none⟩, some a) else (s, none)
  | none => (s, none)

/-- Supporting theorem for C7, evaluating the throttle model with wait 300:
the first call (t = 1000) invokes immediately; a second call inside the
window (t = 1100) only schedules one trailing invocation for t = 1300; a
third call (t = 1200) is dropped; the trailing timer fires at t = 1300 with
the second call's arguments — at most one extra invocation per window, and
no operation of the wrapper can cancel the pending trailing invocation. -/
theorem throttle_leading_then_trailing :
    (throttleCall 300 (throttleInit String) 1000 "first").2 = some "first" ∧
    (throttleCall 300 ((throttleCall 300 (throttleInit String) 1000 "first").1)
      1100 "second").2 = none ∧
    ((throttleCall 300 ((throttleCall 300 (throttleInit String) 1000 "first").1)
      1100 "second").1).timeout = some (1300, "second") ∧
    (throttleCall 300 ((throttleCall 300 ((throttleCall 300 (throttleInit String)
      1000 "first").1) 1100 "second").1) 1200 "third")
      = ((throttleCall 300 ((throttleCall 300 (throttleInit String) 1000
          "first").1) 1100 "second").1, none) ∧
    (throttleFire ((throttleCall 300 ((throttleCall 300 ((throttleCall 300
      (throttleInit String) 1000 "first").1) 1100 "second").1) 1200 "third").1)
      1300).2 = some "second" :=
  ⟨by decide, by decide, by decide, by decide, by decide⟩

/-! ## Lazy loader (performance.ts `lazyLoad`)

The closure state of the function `lazyLoad` returns: the cached `result`
(null until a load resolves), the `loading` flag, the number of queued
`waitingResolvers`, and a count of how many times the underlying `loader`
has been invoked.  A call either returns the cached value, queues itself
while a load is in flight, or starts the loader; the resolution step stores
the loader's value, resolves every queued caller with it and clears the
flight. -/

/-- Closure state of a `lazyLoad` wrapper, plus a loader-invocation
counter. -/
structure LazyState (α : Type) where
  result : Option α
  loading : Bool
  waiting : Nat
  loaderCalls : Nat
deriving DecidableEq

/-- A fresh `lazyLoad` wrapper. -/
def lazyInit (α : Type) : LazyState α := ⟨none, false, 0, 0⟩

/-- Calling the wrapper: return the cached result when present; while
loading, queue a resolver; otherwise start the loader (counted in
`loaderCalls`). -/
def lazyCall (s : LazyState α) : LazyState α × Option α :=
  match s.result with
  | some v => (s, some v)
  | none =>
      if s.loading then ({ s with waiting := s.waiting + 1 }, none)
      else ({ s with loading := true, loaderCalls := s.loaderCalls + 1 }, none)

/-- The loader resolving with `v` (null modelled as `none`): the result is
stored, every queued resolver is resolved with it (the returned list of
delivered values) and the flight ends. -/
def lazyResolve (s : LazyState α) (v : Option α) : LazyState α × List (Option α) :=
  if s.loading then
    ({ s with result := v, loading := false, waiting := 0 },
     List.replicate s.waiting v)
  else (s, [])

/-- Events of a `lazyLoad` wrapper at event-loop granularity. -/
inductive LazyEvent (α : Type) where
  | call
  | resolve (v : Option α)

/-- One event step of the wrapper. -/
def lazyStep (s : LazyState α) (e : LazyEvent α) : LazyState α :=
  match e with
  | .call => (lazyCall s).1
  | .resolve v => (lazyResolve s v).1

/-- Processing a sequence of wrapper events. -/
def runLazy (s : LazyState α) (es : List (LazyEvent α)) : LazyState α :=
  es.foldl lazyStep s

/-- Invariant tying the loader-invocation count to the flight state. -/
def LazyInv {α : Type} (s : LazyState α) : Prop :=
  (s.loading = false ∧ s.result = none → s.loaderCalls = 0) ∧
  ((s.loading = true ∨ s.result.isSome) → s.loaderCalls = 1)

theorem lazyCall_inv {α : Type} :
    ∀ s : LazyState α, LazyInv s → LazyInv (lazyCall s).1 := by
  rintro ⟨r, l, w, c⟩ ⟨h0, h1⟩
  cases r with
  | some v => exact ⟨h0, h1⟩
  | none =>
      cases l with
      | true => exact ⟨fun h => Bool.noConfusion h.1, fun _ => h1 (Or.inl rfl)⟩
      | false =>
          have hc0 : c = 0 := h0 ⟨rfl, rfl⟩
          exact ⟨fun h => Bool.noConfusion h.1, fun _ => by subst hc0; rfl⟩

theorem lazyResolve_inv {α : Type} :
    ∀ (s : LazyState α) (v : α), LazyInv s → LazyInv (lazyResolve s (some v)).1 := by
  rintro ⟨r, l, w, c⟩ v ⟨h0, h1⟩
  cases l with
  | false => exact ⟨h0, h1⟩
  | true =>
      have hc1 : c = 1 := h1 (Or.inl rfl)
      refine ⟨fun h => ?_, fun _ => hc1⟩
      simp [lazyResolve] at h

theorem runLazy_inv {α : Type} (es : List (LazyEvent α))
    (hnn : ∀ v, LazyEvent.resolve v ∈ es → v.isSome) (s : LazyState α)
    (hs : LazyInv s) : LazyInv (runLazy s es) := by
  induction es generalizing s with
  | nil => exact hs
  | cons e es ih =>
      have hnn' : ∀ v, LazyEvent.resolve v ∈ es → v.isSome :=
        fun v hv => hnn v (List.mem_cons_of_mem _ hv)
      cases e with
      | call => exact ih hnn' _ (lazyCall_inv s hs)
      | resolve v =>
          cases v with
          | some w => exact ih hnn' _ (lazyResolve_inv s w hs)
          | none =>
              have hmem := hnn none (List.mem_cons_self _ _)
              simp at hmem

/-- C10: across any event sequence whose resolutions carry non-null values,
the underlying loader is invoked at most once; a call while a load is in
flight or after a success never invokes the loader; once a non-null result
is cached every call returns it unchanged; and resolution delivers the same
resolved value to every caller that queued while the load was in flight. -/
theorem lazyLoad_single_flight (α : Type) :
    (∀ es : List (LazyEvent α), (∀ v, LazyEvent.resolve v ∈ es → v.isSome) →
      (runLazy (lazyInit α) es).loaderCalls ≤ 1) ∧
    (∀ s : LazyState α, s.loading = true ∨ s.result.isSome →
      (lazyCall s).1.loaderCalls = s.loaderCalls) ∧
    (∀ (s : LazyState α) (v : α), s.result = some v → lazyCall s = (s, some v)) ∧
    (∀ (s : LazyState α) (v : α), s.loading = true →
      lazyResolve s (some v)
        = ({ s with result := some v, loading := false, waiting := 0 },
           List.replicate s.waiting (some v))) := by
  refine ⟨fun es h => ?_, ?_, fun s v h => ?_, fun s v h => ?_⟩
  · obtain ⟨h0, h1⟩ := runLazy_inv es h (lazyInit α)
      ⟨fun _ => rfl, by rintro (h | h) <;> simp_all [lazyInit]⟩
    by_cases hl : (runLazy (lazyInit α) es).loading = true
    · rw [h1 (Or.inl hl)]
    · cases hr : (runLazy (lazyInit α) es).result with
      | some v => rw [h1 (Or.inr (by simp [hr]))]
      | none =>
          rw [h0 ⟨by simpa using hl, hr⟩]
          omega
  · rintro ⟨r, l, w, c⟩ (h | h)
    · cases r with
      | some v => rfl
      | none => simp only at h; subst h; rfl
    · cases r with
      | some v => rfl
      | none => simp at h
  · rcases s with ⟨r, l, w, c⟩
    simp only at h
    subst h
    rfl
  · simp [lazyResolve, h]

/-- Witness for C10: two overlapping calls, a resolution with value 5, and a
post-success call — the loader runs once, the cache is returned, and both
queued callers receive the resolved value. -/
theorem lazyLoad_single_flight_witness :
    (runLazy (lazyInit Nat)
      [.call, .call, .resolve (some 5), .call]).loaderCalls ≤ 1 ∧
    lazyCall (⟨some 5, false, 0, 1⟩ : LazyState Nat) = (⟨some 5, false, 0, 1⟩, some 5) ∧
    lazyResolve (⟨none, true, 2, 1⟩ : LazyState Nat) (some 7)
      = (⟨some 7, false, 0, 1⟩, List.replicate 2 (some 7)) :=
  ⟨(lazyLoad_single_flight Nat).1 _
     (by intro v hv; simp at hv; subst hv; rfl),
   (lazyLoad_single_flight Nat).2.2.1 _ 5 rfl,
   (lazyLoad_single_flight Nat).2.2.2 _ 7 rfl⟩

end DensityMap
